import Mathlib

/-!
Verification of the INSPIRE search client in `courier-lhc-publications.py`.

The script wraps the INSPIRE HTTP API with three operations:
  * `perform_inspire_literature_search` — a Python generator that fetches the
    first result page and then follows `links.next` cursors, yielding every
    record of `hits.hits` of every page;
  * `count_inspire_literature_search` — a single GET with `size=1` merged into
    the parameters, returning `hits.total`;
  * `perform_inspire_literature_aggregation` — a single GET to the facet
    endpoint, returning the `aggregations` field of the body.
Each is decorated with `backoff.on_exception(expo, HTTPError, max_tries=10)`.

The embedding below models JSON values, HTTP requests/responses, a server as a
function of the request history, the Python dict-literal parameter merge, the
backoff retry combinator, and the generator as a small-step state machine
(`genStep`) driven to completion by a fuel-indexed driver (`genRun`).  Machine
integers do not occur; counts are `Nat`.
-/

/-- JSON values, as produced by `response.json()`.  Numbers are modelled as
integers; no claim computes with numeric response values, they are only moved
around verbatim. -/
inductive Json where
  | null
  | num (n : Int)
  | str (s : String)
  | arr (elems : List Json)
  | obj (fields : List (String × Json))

/-- Association-list lookup with string keys, modelling Python `dict` access
(first binding wins; the dicts built by the script have unique keys). -/
def alookup (k : String) : List (String × α) → Option α
  | [] => none
  | (k2, v) :: rest => if k = k2 then some v else alookup k rest

/-- `content[k]` on a JSON object; `none` models a `KeyError` (and the
untyped failure of indexing a non-object, which the script never handles
either). -/
def Json.getKey : Json → String → Option Json
  | .obj fields, k => alookup k fields
  | _, _ => none

/-- A query-string parameter value: the script passes strings, except for the
literal `size=1` which is an `int`. -/
inductive PVal where
  | s (v : String)
  | n (v : Int)
deriving DecidableEq, Repr

/-- An HTTP GET request as issued by `session.get(url, params=...)`. -/
structure Request where
  url : String
  params : List (String × PVal)
deriving DecidableEq, Repr

/-- An HTTP response: status code plus parsed JSON body. -/
structure HResp where
  status : Nat
  body : Json

/-- `response.raise_for_status()` raises `requests.exceptions.HTTPError`
exactly for status codes in [400, 600). -/
def HResp.raisesStatus (r : HResp) : Bool :=
  400 ≤ r.status && r.status < 600

/-- The remote server, modelled as a deterministic responder that may depend
on the whole history of requests issued so far (this is how mocked servers
that fail on the first N attempts are expressed). -/
def Server : Type := List Request → Request → HResp

/-- The Python exceptions the script can propagate.  `fuelOut` is a model
artefact of the fuel-indexed driver (a run down an unbounded `links.next`
chain); no theorem below ever produces it. -/
inductive PyErr where
  | httpError (status : Nat)
  | keyError (key : String)
  | typeErr
  | fuelOut
deriving DecidableEq, Repr

/-- An effectful operation: given the server and the request history so far,
it extends the history with the requests it issues and returns a result or
raises. -/
def Op (α : Type) : Type := Server → List Request → List Request × Except PyErr α

/-- Insert-or-replace of one key, the elementary step of the Python
dict-literal merge `{"q": query, **facets}`: an existing binding is replaced
in place, a new key is appended at the end. -/
def insertParam (ps : List (String × PVal)) (k : String) (v : PVal) :
    List (String × PVal) :=
  if ps.any (fun p => p.1 = k) then
    ps.map (fun p => if p.1 = k then (k, v) else p)
  else
    ps ++ [(k, v)]

/-- Python dict-literal merge `{**base, **extra}`: every binding of `extra`
is inserted into `base`, later dicts overriding earlier ones. -/
def mergeParams (base extra : List (String × PVal)) : List (String × PVal) :=
  extra.foldl (fun acc kv => insertParam acc kv.1 kv.2) base

/-- Facet mappings are string-valued; serialize them as parameter values. -/
def facetParams (facets : List (String × String)) : List (String × PVal) :=
  facets.map (fun kv => (kv.1, PVal.s kv.2))

def INSPIRE_LITERATURE_API_ENDPOINT : String := "https://inspirehep.net/api/literature"

def INSPIRE_FACET_API_ENDPOINT : String := "https://inspirehep.net/api/literature/facets"

/-- `YEARS = range(2008, 2021)`. -/
def YEARS : List Nat := List.range' 2008 13

/-- The retry loop of `backoff.on_exception(expo, requests.exceptions.HTTPError,
max_tries=n)`: the wrapped call is attempted up to `n` times; only
`HTTPError` triggers a retry, any other exception propagates at once, and
after the final failed attempt the last exception is re-raised.  The backoff
delays themselves have no effect on the request/response semantics modelled
here. -/
def withRetryAux (op : Op α) (srv : Server) : Nat → List Request → List Request × Except PyErr α
  | 0, t => (t, .error .fuelOut)
  | 1, t => op srv t
  | n + 2, t =>
    match op srv t with
    | (t2, .error (.httpError _)) => withRetryAux op srv (n + 1) t2
    | r => r

/-- The `@on_exception(expo, requests.exceptions.HTTPError, max_tries=maxTries)`
decorator applied to an operation. -/
def withRetry (maxTries : Nat) (op : Op α) : Op α :=
  fun srv t => withRetryAux op srv maxTries t

/-- The request issued by `count_inspire_literature_search`:
`session.get(INSPIRE_LITERATURE_API_ENDPOINT, params={"q": query, "size": 1, **facets})`. -/
def countReq (query : String) (facets : List (String × String)) : Request :=
  ⟨INSPIRE_LITERATURE_API_ENDPOINT,
   mergeParams [("q", PVal.s query), ("size", PVal.n 1)] (facetParams facets)⟩

/-- Body of `count_inspire_literature_search` before decoration: one GET,
`raise_for_status`, then return `content["hits"]["total"]`.  `facets=None`
is modelled as the empty list (Python: `facets = facets or {}`). -/
def count_inspire_literature_search_raw (query : String)
    (facets : List (String × String)) : Op Json := fun srv t =>
  let req := countReq query facets
  let resp := srv t req
  let t2 := t ++ [req]
  if resp.raisesStatus then (t2, .error (.httpError resp.status))
  else
    match resp.body.getKey "hits" with
    | none => (t2, .error (.keyError "hits"))
    | some h =>
      match h.getKey "total" with
      | none => (t2, .error (.keyError "total"))
      | some v => (t2, .ok v)

/-- `count_inspire_literature_search` as decorated in the source. -/
def count_inspire_literature_search (query : String)
    (facets : List (String × String)) : Op Json :=
  withRetry 10 (count_inspire_literature_search_raw query facets)

/-- The request issued by `perform_inspire_literature_aggregation`:
`session.get(INSPIRE_FACET_API_ENDPOINT, params={"q": query, **facets})`. -/
def aggReq (query : String) (facets : List (String × String)) : Request :=
  ⟨INSPIRE_FACET_API_ENDPOINT, mergeParams [("q", PVal.s query)] (facetParams facets)⟩

/-- Body of `perform_inspire_literature_aggregation` before decoration: one
GET, `raise_for_status`, then return `content["aggregations"]`. -/
def perform_inspire_literature_aggregation_raw (query : String)
    (facets : List (String × String)) : Op Json := fun srv t =>
  let req := aggReq query facets
  let resp := srv t req
  let t2 := t ++ [req]
  if resp.raisesStatus then (t2, .error (.httpError resp.status))
  else
    match resp.body.getKey "aggregations" with
    | none => (t2, .error (.keyError "aggregations"))
    | some a => (t2, .ok a)

/-- `perform_inspire_literature_aggregation` as decorated in the source. -/
def perform_inspire_literature_aggregation (query : String)
    (facets : List (String × String)) : Op Json :=
  withRetry 10 (perform_inspire_literature_aggregation_raw query facets)

/-- The initial request issued by the body of `perform_inspire_literature_search`:
`session.get(INSPIRE_LITERATURE_API_ENDPOINT, params={"q": query, **facets})`. -/
def searchReq (query : String) (facets : List (String × String)) : Request :=
  ⟨INSPIRE_LITERATURE_API_ENDPOINT,
   mergeParams [("q", PVal.s query)] (facetParams facets)⟩

/-- `content["hits"]["hits"]`, iterated by the `for` loops of the generator; a
missing key raises, and iterating a non-array is an untyped failure. -/
def getHits (content : Json) : Except PyErr (List Json) :=
  match content.getKey "hits" with
  | none => .error (.keyError "hits")
  | some h =>
    match h.getKey "hits" with
    | none => .error (.keyError "hits")
    | some (.arr xs) => .ok xs
    | some _ => .error .typeErr

/-- The loop guard and cursor `content.get("links", {})["next"]`: `some` when
`"next" in content.get("links", {})`, carrying the next-page value. -/
def getNext (content : Json) : Option Json :=
  match content.getKey "links" with
  | none => none
  | some l => l.getKey "next"

/-- The state of the generator returned by
`perform_inspire_literature_search`:
  * `start`: the generator object exists but its body has not run (Python runs
    no body code at call time);
  * `emitting pending content`: the body is suspended inside a `for` loop with
    `pending` records of the current page still to yield and `content` the
    JSON of the current page;
  * `finished`: the body returned or raised. -/
inductive GenState where
  | start (query : String) (facets : List (String × String))
  | emitting (pending : List Json) (content : Json)
  | finished

/-- Observable outcome of driving the generator one small step: it yields a
record, continues silently after an internal page fetch, finishes normally
(`StopIteration`), or raises. -/
inductive StepOut where
  | yield (r : Json)
  | cont
  | done
  | error (e : PyErr)

/-- One small step of the generator body of
`perform_inspire_literature_search`.  Each step issues at most one request:
from `start`, the initial GET with the merged parameters; from a page with
records still pending, a pure yield (no request); from an exhausted page, the
GET of `content["links"]["next"]` when the loop guard holds, else normal
termination. -/
def genStep (srv : Server) (t : List Request) : GenState → List Request × StepOut × GenState
  | .start query facets =>
    let req := searchReq query facets
    let resp := srv t req
    let t2 := t ++ [req]
    if resp.raisesStatus then (t2, .error (.httpError resp.status), .finished)
    else
      match getHits resp.body with
      | .error e => (t2, .error e, .finished)
      | .ok recs => (t2, .cont, .emitting recs resp.body)
  | .emitting (r :: rs) c => (t, .yield r, .emitting rs c)
  | .emitting [] c =>
    match getNext c with
    | none => (t, .done, .finished)
    | some (.str u) =>
      let req : Request := ⟨u, []⟩
      let resp := srv t req
      let t2 := t ++ [req]
      if resp.raisesStatus then (t2, .error (.httpError resp.status), .finished)
      else
        match getHits resp.body with
        | .error e => (t2, .error e, .finished)
        | .ok recs => (t2, .cont, .emitting recs resp.body)
    | some _ => (t, .error .typeErr, .finished)
  | .finished => (t, .done, .finished)

/-- Driving the generator to completion: the requests issued, the records
yielded in order, and how the iteration ended.  `fuel` bounds the number of
small steps; every theorem below supplies enough fuel for its run, so
`.error .fuelOut` never occurs there. -/
def genRun (srv : Server) : Nat → List Request → GenState → List Request × List Json × Except PyErr Unit
  | 0, t, _ => (t, [], .error .fuelOut)
  | fuel + 1, t, g =>
    match genStep srv t g with
    | (t2, .yield r, g2) =>
      let rest := genRun srv fuel t2 g2
      (rest.1, r :: rest.2.1, rest.2.2)
    | (t2, .cont, g2) => genRun srv fuel t2 g2
    | (t2, .done, _) => (t2, [], .ok ())
    | (t2, .error e, _) => (t2, [], .error e)

/-- Calling the (undecorated) generator function
`perform_inspire_literature_search(query, facets)`: in Python this only
creates the generator object; no request is issued and no body code runs. -/
def perform_inspire_literature_search (query : String)
    (facets : List (String × String)) : GenState :=
  .start query facets

/-- Generator creation as an operation, so the decorator can wrap it: it is
pure, issues no request, and never raises. -/
def searchCreateOp (query : String) (facets : List (String × String)) : Op GenState :=
  fun _ t => (t, .ok (perform_inspire_literature_search query facets))

/-- The decorated `perform_inspire_literature_search`, i.e. what a caller of
the script actually invokes: `backoff.on_exception` wraps the call of the
generator function, which is exactly generator creation. -/
def perform_inspire_literature_search_decorated (query : String)
    (facets : List (String × String)) : Op GenState :=
  withRetry 10 (searchCreateOp query facets)

/-- A caller that obtains the generator from the decorated function and
consumes it to exhaustion (as `list(...)` or a `for` loop would). -/
def searchAll (srv : Server) (fuel : Nat) (t : List Request) (query : String)
    (facets : List (String × String)) : List Request × List Json × Except PyErr Unit :=
  match perform_inspire_literature_search_decorated query facets srv t with
  | (t2, .ok g) => genRun srv fuel t2 g
  | (t2, .error e) => (t2, [], .error e)

/-- The facet mapping built by `get_citations`:
`first_year = next(iter(YEARS))`, then `for last_year in years: pass` leaves
`last_year` bound to the final element, and the date range is the f-string
`f"{first_year}--{last_year}"`. -/
def get_citations_facets : List (String × String) :=
  [("earliest_date",
    toString (YEARS.headD 0) ++ "--" ++ toString ((YEARS.drop 1).getLastD 0)),
   ("facet_name", "citation-summary")]

/-- `get_citations(query)`: one aggregation call, then the pair
`(citation_stats["citations_count"]["value"], citation_stats["average_citations"]["value"])`
where `citation_stats = result["citation_summary"]["citations"]["buckets"]["all"]`. -/
def get_citations (query : String) : Op (Json × Json) := fun srv t =>
  match perform_inspire_literature_aggregation query get_citations_facets srv t with
  | (t2, .error e) => (t2, .error e)
  | (t2, .ok result) =>
    match result.getKey "citation_summary" with
    | none => (t2, .error (.keyError "citation_summary"))
    | some cs =>
      match cs.getKey "citations" with
      | none => (t2, .error (.keyError "citations"))
      | some ci =>
        match ci.getKey "buckets" with
        | none => (t2, .error (.keyError "buckets"))
        | some bu =>
          match bu.getKey "all" with
          | none => (t2, .error (.keyError "all"))
          | some stats =>
            match stats.getKey "citations_count" with
            | none => (t2, .error (.keyError "citations_count"))
            | some cc =>
              match cc.getKey "value" with
              | none => (t2, .error (.keyError "value"))
              | some vc =>
                match stats.getKey "average_citations" with
                | none => (t2, .error (.keyError "average_citations"))
                | some ac =>
                  match ac.getKey "value" with
                  | none => (t2, .error (.keyError "value"))
                  | some va => (t2, .ok (vc, va))

/-! ## Mocked servers

Test doubles used to state the pagination and retry claims, in the style of
the "mocked responses" of the spec: a page chain served in order, variants that
inject HTTP errors, and simple single-response servers. -/

/-- One page of a mocked paginated response: the URL at which it is served
(unused for the first page, which is fetched from the literature endpoint)
and the records of its `hits.hits`. -/
structure PageSpec where
  url : String
  recs : List Json

/-- The JSON body of a page: `hits.hits` holding the records and, when a
following page exists, `links.next` holding its URL. -/
def chainBody (p : PageSpec) (next : Option String) : Json :=
  Json.obj ([("hits", Json.obj [("hits", Json.arr p.recs)])] ++
    (match next with
     | some u => [("links", Json.obj [("next", Json.str u)])]
     | none => []))

/-- The body served for page `i` of the chain `ps`: its records, plus a
`links.next` cursor to page `i + 1` whenever that page exists. -/
def bodyOf (ps : List PageSpec) (i : Nat) : Json :=
  match ps[i]? with
  | some p => chainBody p (ps[i + 1]?.map PageSpec.url)
  | none => Json.null

/-- A mocked server presenting the chain `ps`: the `n`-th request of the
session (whatever its URL) is answered with page `n`, further requests with
404.  The bodies embed the genuine `links.next` cursors, and the theorems
below pin the full request trace, so a successful run certifies that each
request was directed at the cursor of the previous page. -/
def chainServer (ps : List PageSpec) : Server := fun hist _req =>
  match ps[hist.length]? with
  | some _ => ⟨200, bodyOf ps hist.length⟩
  | none => ⟨404, Json.null⟩

/-- Like `chainServer ps`, but the request with index `j` is answered with
the bare error status `s` instead. -/
def chainServerErrAt (ps : List PageSpec) (j s : Nat) : Server := fun hist req =>
  if hist.length = j then ⟨s, Json.null⟩ else chainServer ps hist req

/-- The cursor request fetching a page: `session.get(content["links"]["next"])`
carries no query parameters. -/
def nextPageReq (p : PageSpec) : Request := ⟨p.url, []⟩

/-- The full request trace of a successful paginated search over `ps`: the
initial parameterised GET, then one cursor GET per remaining page. -/
def chainReqs (ps : List PageSpec) (query : String)
    (facets : List (String × String)) : List Request :=
  searchReq query facets :: (ps.drop 1).map nextPageReq

/-- Small steps needed to finish a run that stands at the start of the `while`
loop with page `i` exhausted: one fetch plus one step per record for each
remaining page, and a final step observing the missing `links.next`. -/
def chainStepsFrom (ps : List PageSpec) (i : Nat) : Nat :=
  ((ps.drop (i + 1)).map (fun p => p.recs.length + 1)).sum + 1

/-- Small steps needed to consume the whole chain `ps`. -/
def chainFuel (ps : List PageSpec) : Nat :=
  (ps.map (fun p => p.recs.length + 1)).sum + 1

theorem getHits_chainBody (p : PageSpec) (nx : Option String) :
    getHits (chainBody p nx) = .ok p.recs := by
  cases nx <;> rfl

theorem getNext_chainBody_none (p : PageSpec) :
    getNext (chainBody p none) = none := rfl

theorem getNext_chainBody_some (p : PageSpec) (u : String) :
    getNext (chainBody p (some u)) = some (.str u) := rfl

/-- Yielding the pending records of the current page is pure: it issues no
request and prepends the records, in order, to whatever the rest of the run
produces. -/
theorem genRun_pending (srv : Server) (c : Json) :
    ∀ (pending : List Json) (f : Nat) (t : List Request),
      genRun srv (pending.length + f) t (.emitting pending c) =
        ((genRun srv f t (.emitting [] c)).1,
         pending ++ (genRun srv f t (.emitting [] c)).2.1,
         (genRun srv f t (.emitting [] c)).2.2) := by
  intro pending
  induction pending with
  | nil =>
    intro f t
    simp only [List.length_nil, Nat.zero_add, List.nil_append]
  | cons r rs ih =>
    intro f t
    have hfuel : (r :: rs).length + f = (rs.length + f) + 1 := by
      simp only [List.length_cons]; omega
    rw [hfuel]
    simp only [genRun, genStep]
    rw [ih f t]
    simp only [List.cons_append]

/-- From the top of the `while` loop with page `i` exhausted, the run over
`chainServer ps` fetches exactly the remaining pages (one cursor GET each),
yields their records in order, and ends normally after the last page, whose
body carries no `links.next`. -/
theorem genRun_chain (ps : List PageSpec) :
    ∀ (m i : Nat) (t : List Request) (f : Nat),
      i + m + 1 = ps.length → t.length = i + 1 →
      genRun (chainServer ps) (chainStepsFrom ps i + f) t (.emitting [] (bodyOf ps i)) =
        (t ++ (ps.drop (i + 1)).map nextPageReq,
         ((ps.drop (i + 1)).map PageSpec.recs).flatten, .ok ()) := by
  intro m
  induction m with
  | zero =>
    intro i t f hlen ht
    have hilt : i < ps.length := by omega
    have hp : ps[i]? = some ps[i] := List.getElem?_eq_getElem hilt
    have hnone : ps[i + 1]? = none := List.getElem?_eq_none (by omega)
    have hdrop : ps.drop (i + 1) = [] := List.drop_eq_nil_of_le (by omega)
    have hbody : bodyOf ps i = chainBody ps[i] none := by
      simp only [bodyOf, hp, hnone]; rfl
    have hsteps : chainStepsFrom ps i + f = f + 1 := by
      simp only [chainStepsFrom, hdrop, List.map_nil, List.sum_nil]; omega
    rw [hbody, hsteps]
    simp only [genRun, genStep, getNext_chainBody_none, hdrop, List.map_nil,
      List.flatten_nil, List.append_nil]
  | succ m ih =>
    intro i t f hlen ht
    have hi : i < ps.length := by omega
    have hi1 : i + 1 < ps.length := by omega
    have hp : ps[i]? = some ps[i] := List.getElem?_eq_getElem hi
    have hp1 : ps[i + 1]? = some ps[i + 1] := List.getElem?_eq_getElem hi1
    have hbody : bodyOf ps i = chainBody ps[i] (some (ps[i + 1]).url) := by
      simp only [bodyOf, hp, hp1]; rfl
    have hdropd : ps.drop (i + 1) = ps[i + 1] :: ps.drop (i + 1 + 1) :=
      List.drop_eq_getElem_cons hi1
    have hsteps : chainStepsFrom ps i + f =
        ((ps[i + 1]).recs.length + (chainStepsFrom ps (i + 1) + f)) + 1 := by
      simp only [chainStepsFrom, hdropd, List.map_cons, List.sum_cons]; omega
    have hbody1 : bodyOf ps (i + 1) = chainBody ps[i + 1] (ps[i + 1 + 1]?.map PageSpec.url) := by
      simp only [bodyOf, hp1]
    have hsrv : chainServer ps t (⟨(ps[i + 1]).url, []⟩ : Request) =
        ⟨200, bodyOf ps (i + 1)⟩ := by
      simp only [chainServer, ht, hp1]
    rw [hbody, hsteps]
    simp only [genRun, genStep, getNext_chainBody_some, hsrv]
    have hstatus : (⟨200, bodyOf ps (i + 1)⟩ : HResp).raisesStatus = false := rfl
    rw [hstatus]
    simp only [Bool.false_eq_true, if_false, hbody1, getHits_chainBody]
    rw [genRun_pending]
    rw [← hbody1]
    rw [ih (i + 1) (t ++ [(⟨(ps[i + 1]).url, []⟩ : Request)]) f (by omega) (by simp [ht])]
    simp only [hdropd, List.map_cons, List.flatten_cons, nextPageReq, List.append_assoc,
      List.cons_append, List.nil_append]

/-- Creating the generator through the decorated function issues no request
and cannot raise, so consuming `searchAll` is exactly driving the generator
from its `start` state. -/
theorem searchAll_eq_genRun (srv : Server) (fuel : Nat) (t : List Request)
    (query : String) (facets : List (String × String)) :
    searchAll srv fuel t query facets = genRun srv fuel t (.start query facets) := rfl

/-- C1: for every query and facet mapping and every mocked page chain,
`searchAll` yields exactly the `hits.hits` records of the first page followed
by those of each page reached through `links.next`, in order; its request
trace is exactly one GET per page — the initial parameterised GET and then
one GET to each cursor URL — and no request follows the page whose response
has no `links.next` (hence one request for a one-page chain, two for a
two-page chain). -/
theorem searchAll_yields_all_pages (query : String) (facets : List (String × String))
    (ps : List PageSpec) (f : Nat) (hne : ps ≠ []) :
    searchAll (chainServer ps) (chainFuel ps + f) [] query facets =
      (chainReqs ps query facets, (ps.map PageSpec.recs).flatten, .ok ()) := by
  cases ps with
  | nil => exact absurd rfl hne
  | cons p0 rest =>
    rw [searchAll_eq_genRun]
    have hfuel : chainFuel (p0 :: rest) + f =
        (p0.recs.length + (chainStepsFrom (p0 :: rest) 0 + f)) + 1 := by
      simp only [chainFuel, chainStepsFrom, List.map_cons, List.sum_cons, List.drop_succ_cons,
        List.drop_zero]
      omega
    have hsrv0 : chainServer (p0 :: rest) [] (searchReq query facets) =
        ⟨200, bodyOf (p0 :: rest) 0⟩ := by
      simp only [chainServer, List.length_nil, List.getElem?_cons_zero]
    have hb0 : bodyOf (p0 :: rest) 0 =
        chainBody p0 ((p0 :: rest)[0 + 1]?.map PageSpec.url) := by
      simp only [bodyOf, List.getElem?_cons_zero]
    rw [hfuel]
    simp only [genRun, genStep, hsrv0]
    have hstatus : (⟨200, bodyOf (p0 :: rest) 0⟩ : HResp).raisesStatus = false := rfl
    rw [hstatus]
    simp only [Bool.false_eq_true, if_false, hb0, getHits_chainBody]
    rw [genRun_pending]
    rw [← hb0]
    simp only [List.nil_append]
    rw [genRun_chain (p0 :: rest) rest.length 0 [searchReq query facets] f
      (by simp) (by simp)]
    simp only [chainReqs, List.drop_succ_cons, List.drop_zero, List.map_cons,
      List.flatten_cons, List.singleton_append, List.nil_append]

/-- Witness for C1: a concrete two-page chain — two requests in total, the
records of page 1 then page 2, normal termination. -/
theorem searchAll_yields_all_pages_witness :
    (([⟨"", [Json.num 1, Json.num 2]⟩, ⟨"https://inspirehep.net/next2", [Json.num 3]⟩] :
        List PageSpec) ≠ []) ∧
      searchAll
          (chainServer [⟨"", [Json.num 1, Json.num 2]⟩,
            ⟨"https://inspirehep.net/next2", [Json.num 3]⟩])
          (chainFuel [⟨"", [Json.num 1, Json.num 2]⟩,
            ⟨"https://inspirehep.net/next2", [Json.num 3]⟩] + 0)
          [] "cn alice" [("earliest_date", "2008--2008")] =
        (chainReqs [⟨"", [Json.num 1, Json.num 2]⟩,
            ⟨"https://inspirehep.net/next2", [Json.num 3]⟩] "cn alice"
            [("earliest_date", "2008--2008")],
         [Json.num 1, Json.num 2, Json.num 3], .ok ()) := by
  refine ⟨by simp, ?_⟩
  rw [searchAll_yields_all_pages "cn alice" [("earliest_date", "2008--2008")]
    [⟨"", [Json.num 1, Json.num 2]⟩, ⟨"https://inspirehep.net/next2", [Json.num 3]⟩] 0
    (by simp)]
  rfl

/-- C7: the sequence is lazy and strictly sequential.  First conjunct: while
records of the current page remain pending, a step of the generator yields
the next one in order and leaves the request history untouched — so the GET
for page N+1 cannot be issued before every record of page N has been yielded,
and a consumer that stops requesting elements (stops stepping) causes no
further request, since requests arise only inside `genStep`.  Second
conjunct: once the current page is exhausted and has no `links.next`, the
generator finishes without issuing any request. -/
theorem searchAll_lazy_sequential :
    (∀ (srv : Server) (t : List Request) (r : Json) (rs : List Json) (c : Json),
        genStep srv t (.emitting (r :: rs) c) = (t, .yield r, .emitting rs c)) ∧
    (∀ (srv : Server) (t : List Request) (c : Json), getNext c = none →
        genStep srv t (.emitting [] c) = (t, .done, .finished)) := by
  refine ⟨fun srv t r rs c => rfl, fun srv t c h => ?_⟩
  simp only [genStep, h]

/-- Witness for C7, against a server that only ever answers 500: the yielding
step touches neither the server nor the trace, and the final step of a page
without `links.next` issues nothing. -/
theorem searchAll_lazy_sequential_witness :
    genStep (fun _ _ => ⟨500, Json.null⟩) [] (.emitting [Json.num 7] (Json.obj [])) =
        ([], .yield (Json.num 7), .emitting [] (Json.obj [])) ∧
      getNext (Json.obj []) = none ∧
      genStep (fun _ _ => ⟨500, Json.null⟩) [] (.emitting [] (Json.obj [])) =
        ([], .done, .finished) :=
  ⟨searchAll_lazy_sequential.1 _ _ _ _ _, rfl, searchAll_lazy_sequential.2 _ _ _ rfl⟩

/-- Small steps needed for the run that stands at the top of the `while` loop
with page `i` exhausted to reach the failing fetch of page `j`. -/
def errStepsFrom (ps : List PageSpec) (i j : Nat) : Nat :=
  (((ps.drop (i + 1)).take (j - i - 1)).map (fun p => p.recs.length + 1)).sum + 1

/-- Small steps needed for a whole run whose fetch of page `j` fails. -/
def errFuel (ps : List PageSpec) (j : Nat) : Nat :=
  ((ps.take j).map (fun p => p.recs.length + 1)).sum + 1

/-- From the top of the `while` loop with page `i` exhausted, when the server
errors on the request with index `j`, the run fetches pages `i+1 .. j-1`
normally, yields their records, issues the failing GET for page `j`, and
aborts with the `HTTPError`. -/
theorem genRun_chain_err (ps : List PageSpec) (j s : Nat) (hj : j < ps.length)
    (hraise : (⟨s, Json.null⟩ : HResp).raisesStatus = true) :
    ∀ (m i : Nat) (t : List Request) (f : Nat),
      i + 1 + m = j → t.length = i + 1 →
      genRun (chainServerErrAt ps j s) (errStepsFrom ps i j + f) t
          (.emitting [] (bodyOf ps i)) =
        (t ++ ((ps.drop (i + 1)).take (j - i)).map nextPageReq,
         (((ps.drop (i + 1)).take (j - i - 1)).map PageSpec.recs).flatten,
         .error (.httpError s)) := by
  intro m
  induction m with
  | zero =>
    intro i t f hij ht
    have hi1 : i + 1 < ps.length := by omega
    have hp : ps[i]? = some ps[i] := List.getElem?_eq_getElem (by omega)
    have hp1 : ps[i + 1]? = some ps[i + 1] := List.getElem?_eq_getElem hi1
    have hbody : bodyOf ps i = chainBody ps[i] (some (ps[i + 1]).url) := by
      simp only [bodyOf, hp, hp1]; rfl
    have hdropd : ps.drop (i + 1) = ps[i + 1] :: ps.drop (i + 1 + 1) :=
      List.drop_eq_getElem_cons hi1
    have hsteps : errStepsFrom ps i j + f = f + 1 := by
      have htake : j - i - 1 = 0 := by omega
      simp only [errStepsFrom, htake, List.take_zero, List.map_nil, List.sum_nil]
      omega
    have hsrv : chainServerErrAt ps j s t (⟨(ps[i + 1]).url, []⟩ : Request) =
        ⟨s, Json.null⟩ := by
      simp only [chainServerErrAt, ht]
      rw [if_pos (by omega)]
    rw [hbody, hsteps]
    simp only [genRun, genStep, getNext_chainBody_some, hsrv, hraise, if_true]
    have htake1 : (ps.drop (i + 1)).take (j - i) = [ps[i + 1]] := by
      have : j - i = 1 := by omega
      rw [this, hdropd]
      rfl
    have htake0 : (ps.drop (i + 1)).take (j - i - 1) = [] := by
      have : j - i - 1 = 0 := by omega
      rw [this, List.take_zero]
    rw [htake1, htake0]
    simp only [List.map_cons, List.map_nil, List.flatten_nil, nextPageReq]
  | succ m ih =>
    intro i t f hij ht
    have hi1 : i + 1 < ps.length := by omega
    have hp : ps[i]? = some ps[i] := List.getElem?_eq_getElem (by omega)
    have hp1 : ps[i + 1]? = some ps[i + 1] := List.getElem?_eq_getElem hi1
    have hbody : bodyOf ps i = chainBody ps[i] (some (ps[i + 1]).url) := by
      simp only [bodyOf, hp, hp1]; rfl
    have hdropd : ps.drop (i + 1) = ps[i + 1] :: ps.drop (i + 1 + 1) :=
      List.drop_eq_getElem_cons hi1
    have hbody1 : bodyOf ps (i + 1) = chainBody ps[i + 1] (ps[i + 1 + 1]?.map PageSpec.url) := by
      simp only [bodyOf, hp1]
    have hsrv : chainServerErrAt ps j s t (⟨(ps[i + 1]).url, []⟩ : Request) =
        ⟨200, bodyOf ps (i + 1)⟩ := by
      simp only [chainServerErrAt, ht]
      rw [if_neg (by omega)]
      simp only [chainServer, ht, hp1]
    have htaked : (ps.drop (i + 1)).take (j - i - 1) =
        ps[i + 1] :: (ps.drop (i + 1 + 1)).take (j - (i + 1) - 1) := by
      have hji : j - i - 1 = (j - (i + 1) - 1) + 1 := by omega
      rw [hji, hdropd, List.take_succ_cons]
    have hsteps : errStepsFrom ps i j + f =
        ((ps[i + 1]).recs.length + (errStepsFrom ps (i + 1) j + f)) + 1 := by
      simp only [errStepsFrom, htaked, List.map_cons, List.sum_cons]
      omega
    rw [hbody, hsteps]
    simp only [genRun, genStep, getNext_chainBody_some, hsrv]
    have hstatus : (⟨200, bodyOf ps (i + 1)⟩ : HResp).raisesStatus = false := rfl
    rw [hstatus]
    simp only [Bool.false_eq_true, if_false, hbody1, getHits_chainBody]
    rw [genRun_pending]
    rw [← hbody1]
    rw [ih (i + 1) (t ++ [(⟨(ps[i + 1]).url, []⟩ : Request)]) f (by omega) (by simp [ht])]
    have htakedr : (ps.drop (i + 1)).take (j - i) =
        ps[i + 1] :: (ps.drop (i + 1 + 1)).take (j - (i + 1)) := by
      have hji : j - i = (j - (i + 1)) + 1 := by omega
      rw [hji, hdropd, List.take_succ_cons]
    rw [htakedr, htaked]
    simp only [List.map_cons, List.flatten_cons, nextPageReq, List.append_assoc,
      List.cons_append, List.nil_append]

/-- C8: if the fetch of any page of a `searchAll` sequence fails (the server
answers the request with index `j` with an HTTP error status), the whole
sequence aborts with that `HTTPError`: the caller has received exactly the
records of the pages before the failing one and then gets the error — the
outcome is `.error`, never a truncated-but-successful `.ok`. -/
theorem searchAll_aborts_on_page_error (query : String) (facets : List (String × String))
    (ps : List PageSpec) (j s f : Nat) (hj : j < ps.length)
    (hs400 : 400 ≤ s) (hs600 : s < 600) :
    searchAll (chainServerErrAt ps j s) (errFuel ps j + f) [] query facets =
      ((chainReqs ps query facets).take (j + 1),
       ((ps.take j).map PageSpec.recs).flatten,
       .error (.httpError s)) := by
  have hraise : (⟨s, Json.null⟩ : HResp).raisesStatus = true := by
    simp [HResp.raisesStatus, hs400, hs600]
  rw [searchAll_eq_genRun]
  cases ps with
  | nil => simp at hj
  | cons p0 rest =>
    rcases Nat.eq_zero_or_pos j with hj0 | hjpos
    · subst hj0
      have hsteps : errFuel (p0 :: rest) 0 + f = f + 1 := by
        simp only [errFuel, List.take_zero, List.map_nil, List.sum_nil]; omega
      have hsrv : chainServerErrAt (p0 :: rest) 0 s [] (searchReq query facets) =
          ⟨s, Json.null⟩ := by
        simp only [chainServerErrAt, List.length_nil, if_pos]
      rw [hsteps]
      simp only [genRun, genStep, hsrv, hraise, if_true]
      simp only [chainReqs, List.take_succ_cons, List.take_zero, List.map_nil,
        List.flatten_nil, List.nil_append]
    · have hj1 : 1 ≤ j := hjpos
      have hsrv0 : chainServerErrAt (p0 :: rest) j s [] (searchReq query facets) =
          ⟨200, bodyOf (p0 :: rest) 0⟩ := by
        simp only [chainServerErrAt, List.length_nil]
        rw [if_neg (by omega)]
        simp only [chainServer, List.length_nil, List.getElem?_cons_zero]
      have hb0 : bodyOf (p0 :: rest) 0 =
          chainBody p0 ((p0 :: rest)[0 + 1]?.map PageSpec.url) := by
        simp only [bodyOf, List.getElem?_cons_zero]
      have htake : (p0 :: rest).take j = p0 :: rest.take (j - 1) := by
        conv_lhs => rw [show j = (j - 1) + 1 from by omega]
        rw [List.take_succ_cons]
      have hsteps : errFuel (p0 :: rest) j + f =
          (p0.recs.length + (errStepsFrom (p0 :: rest) 0 j + f)) + 1 := by
        simp only [errFuel, errStepsFrom, htake, List.map_cons, List.sum_cons,
          List.drop_succ_cons, List.drop_zero, Nat.zero_add, Nat.sub_zero]
        omega
      rw [hsteps]
      simp only [genRun, genStep, hsrv0]
      have hstatus : (⟨200, bodyOf (p0 :: rest) 0⟩ : HResp).raisesStatus = false := rfl
      rw [hstatus]
      simp only [Bool.false_eq_true, if_false, hb0, getHits_chainBody]
      rw [genRun_pending]
      rw [← hb0]
      simp only [List.nil_append]
      rw [genRun_chain_err (p0 :: rest) j s hj hraise (j - 1) 0 [searchReq query facets] f
        (by omega) (by simp)]
      simp only [chainReqs, List.take_succ_cons, List.drop_succ_cons, List.drop_zero,
        Nat.sub_zero, List.map_take, htake, List.map_cons, List.flatten_cons,
        List.singleton_append, List.nil_append]

/-- Witness for C8: a three-page chain whose third page fetch (request index 2)
is answered 500 — the run yields the four records of pages 1 and 2, issues
three requests, and aborts with the `HTTPError`. -/
theorem searchAll_aborts_on_page_error_witness :
    (2 < ([⟨"", [Json.num 1, Json.num 2]⟩, ⟨"u2", [Json.num 3, Json.num 4]⟩,
        ⟨"u3", [Json.num 5]⟩] : List PageSpec).length ∧ 400 ≤ 500 ∧ 500 < 600) ∧
      searchAll
          (chainServerErrAt [⟨"", [Json.num 1, Json.num 2]⟩, ⟨"u2", [Json.num 3, Json.num 4]⟩,
            ⟨"u3", [Json.num 5]⟩] 2 500)
          (errFuel [⟨"", [Json.num 1, Json.num 2]⟩, ⟨"u2", [Json.num 3, Json.num 4]⟩,
            ⟨"u3", [Json.num 5]⟩] 2 + 0)
          [] "tc core" [] =
        ([searchReq "tc core" [], ⟨"u2", []⟩, ⟨"u3", []⟩],
         [Json.num 1, Json.num 2, Json.num 3, Json.num 4],
         .error (.httpError 500)) := by
  refine ⟨⟨by simp, by omega, by omega⟩, ?_⟩
  rw [searchAll_aborts_on_page_error "tc core" []
    [⟨"", [Json.num 1, Json.num 2]⟩, ⟨"u2", [Json.num 3, Json.num 4]⟩, ⟨"u3", [Json.num 5]⟩]
    2 500 0 (by simp) (by omega) (by omega)]
  rfl

/-! ## Dict-merge lemmas -/

theorem alookup_append (k : String) (l1 l2 : List (String × α)) :
    alookup k (l1 ++ l2) = (alookup k l1).or (alookup k l2) := by
  induction l1 with
  | nil => rfl
  | cons kv rest ih =>
    obtain ⟨k2, v⟩ := kv
    show alookup k ((k2, v) :: (rest ++ l2)) =
      (alookup k ((k2, v) :: rest)).or (alookup k l2)
    simp only [alookup]
    by_cases h : k = k2
    · rw [if_pos h, if_pos h]; rfl
    · rw [if_neg h, if_neg h, ih]

theorem alookup_eq_none_of_not_mem (k : String) (ps : List (String × α))
    (h : k ∉ ps.map Prod.fst) : alookup k ps = none := by
  induction ps with
  | nil => rfl
  | cons kv rest ih =>
    simp only [List.map_cons, List.mem_cons, not_or] at h
    obtain ⟨k2, v⟩ := kv
    simp only [alookup]
    rw [if_neg h.1, ih h.2]

theorem alookup_eq_none_of_not_any (k : String) (ps : List (String × α))
    (h : ps.any (fun p => p.1 = k) = false) : alookup k ps = none := by
  induction ps with
  | nil => rfl
  | cons kv rest ih =>
    obtain ⟨k2, v⟩ := kv
    simp only [List.any_cons, Bool.or_eq_false_iff, decide_eq_false_iff_not] at h
    simp only [alookup]
    rw [if_neg (fun hh => h.1 hh.symm), ih h.2]

theorem alookup_map_replace (k k2 : String) (v : PVal) (ps : List (String × PVal))
    (hne : k2 ≠ k) :
    alookup k2 (ps.map (fun p => if p.1 = k then (k, v) else p)) = alookup k2 ps := by
  induction ps with
  | nil => rfl
  | cons kv rest ih =>
    obtain ⟨k3, v3⟩ := kv
    simp only [List.map_cons]
    by_cases h3 : (k3, v3).1 = k
    · rw [if_pos h3]
      show (if k2 = k then some v else _) = if k2 = k3 then some v3 else alookup k2 rest
      rw [if_neg hne, if_neg (fun hh => hne (hh.trans h3)), ih]
    · rw [if_neg h3]
      show (if k2 = k3 then some v3 else _) =
        if k2 = k3 then some v3 else alookup k2 rest
      by_cases hk23 : k2 = k3
      · rw [if_pos hk23, if_pos hk23]
      · rw [if_neg hk23, if_neg hk23, ih]

theorem alookup_insertParam_self (ps : List (String × PVal)) (k : String) (v : PVal) :
    alookup k (insertParam ps k v) = some v := by
  unfold insertParam
  by_cases hany : ps.any (fun p => p.1 = k) = true
  · rw [if_pos hany]
    induction ps with
    | nil => simp at hany
    | cons kv rest ih =>
      obtain ⟨k2, v2⟩ := kv
      simp only [List.map_cons]
      by_cases h2 : (k2, v2).1 = k
      · rw [if_pos h2]
        show (if k = k then some v else _) = some v
        rw [if_pos rfl]
      · rw [if_neg h2]
        show (if k = k2 then some v2 else _) = some v
        rw [if_neg (fun hh => h2 hh.symm)]
        simp only [List.any_cons, decide_eq_true_eq, h2, false_or] at hany
        exact ih hany
  · rw [if_neg hany]
    rw [alookup_append, alookup_eq_none_of_not_any k ps (Bool.eq_false_iff.mpr hany)]
    show Option.or none (if k = k then some v else none) = some v
    rw [if_pos rfl]
    rfl

theorem alookup_insertParam_other (ps : List (String × PVal)) (k k2 : String) (v : PVal)
    (hne : k2 ≠ k) : alookup k2 (insertParam ps k v) = alookup k2 ps := by
  unfold insertParam
  by_cases hany : ps.any (fun p => p.1 = k) = true
  · rw [if_pos hany, alookup_map_replace k k2 v ps hne]
  · rw [if_neg hany, alookup_append]
    show (alookup k2 ps).or (if k2 = k then some v else none) = alookup k2 ps
    rw [if_neg hne]
    cases alookup k2 ps <;> rfl

theorem alookup_mergeParams_of_none (k : String) :
    ∀ (extra base : List (String × PVal)), alookup k extra = none →
      alookup k (mergeParams base extra) = alookup k base := by
  intro extra
  induction extra with
  | nil => intro base _; rfl
  | cons kv rest ih =>
    intro base h
    obtain ⟨k0, v0⟩ := kv
    simp only [alookup] at h
    by_cases h0 : k = k0
    · rw [if_pos h0] at h; exact absurd h (by simp)
    · rw [if_neg h0] at h
      show alookup k (mergeParams (insertParam base k0 v0) rest) = alookup k base
      rw [ih (insertParam base k0 v0) h, alookup_insertParam_other base k0 k v0 h0]

theorem alookup_mergeParams_of_some (k : String) (v : PVal) :
    ∀ (extra base : List (String × PVal)), (extra.map Prod.fst).Nodup →
      alookup k extra = some v →
      alookup k (mergeParams base extra) = some v := by
  intro extra
  induction extra with
  | nil =>
    intro base _ h
    exact absurd h (by simp [alookup])
  | cons kv rest ih =>
    intro base hnd h
    obtain ⟨k0, v0⟩ := kv
    simp only [List.map_cons, List.nodup_cons] at hnd
    simp only [alookup] at h
    by_cases h0 : k = k0
    · rw [if_pos h0] at h
      have hrest : alookup k rest = none :=
        alookup_eq_none_of_not_mem k rest (by rw [h0]; exact hnd.1)
      show alookup k (mergeParams (insertParam base k0 v0) rest) = some v
      rw [alookup_mergeParams_of_none k rest (insertParam base k0 v0) hrest, h0,
        alookup_insertParam_self]
      exact h
    · rw [if_neg h0] at h
      show alookup k (mergeParams (insertParam base k0 v0) rest) = some v
      exact ih (insertParam base k0 v0) hnd.2 h

theorem alookup_facetParams (k : String) (facets : List (String × String)) :
    alookup k (facetParams facets) = (alookup k facets).map PVal.s := by
  induction facets with
  | nil => rfl
  | cons kv rest ih =>
    obtain ⟨k2, v2⟩ := kv
    show (if k = k2 then some (PVal.s v2) else alookup k (facetParams rest)) =
      ((if k = k2 then some v2 else alookup k rest)).map PVal.s
    by_cases h : k = k2
    · rw [if_pos h, if_pos h]; rfl
    · rw [if_neg h, if_neg h, ih]

theorem facetParams_keys (facets : List (String × String)) :
    (facetParams facets).map Prod.fst = facets.map Prod.fst := by
  induction facets with
  | nil => rfl
  | cons kv rest ih =>
    show kv.1 :: (facetParams rest).map Prod.fst = kv.1 :: rest.map Prod.fst
    rw [ih]

/-- When the first attempt of an operation succeeds, the decorator is
transparent: the requests and the result of the call are those of the single
attempt. -/
theorem withRetry_first_ok (op : Op α) (srv : Server) (t t2 : List Request) (a : α)
    (h : op srv t = (t2, .ok a)) : withRetry 10 op srv t = (t2, .ok a) := by
  simp only [withRetry, show (10 : Nat) = 8 + 2 from rfl, withRetryAux, h]

/-- C4: for every query and facet mapping, `countAll` issues exactly one GET
request — whose parameters are `size=1` merged with the facet parameters on
top of the query — does not paginate, and returns the `hits.total` field of
the response body; when the facet mapping does not itself bind `size`, the
outgoing parameters bind `size` to the integer 1. -/
theorem countAll_single_request (srv : Server) (query : String)
    (facets : List (String × String)) (body h v : Json)
    (hresp : srv [] (countReq query facets) = ⟨200, body⟩)
    (hh : body.getKey "hits" = some h) (hv : h.getKey "total" = some v) :
    count_inspire_literature_search query facets srv [] =
        ([countReq query facets], .ok v) ∧
      (countReq query facets).params =
        mergeParams [("q", PVal.s query), ("size", PVal.n 1)] (facetParams facets) ∧
      (alookup "size" facets = none →
        alookup "size" (countReq query facets).params = some (PVal.n 1)) := by
  refine ⟨?_, rfl, ?_⟩
  · have hst : (⟨200, body⟩ : HResp).raisesStatus = false := rfl
    have hop : count_inspire_literature_search_raw query facets srv [] =
        ([countReq query facets], .ok v) := by
      simp only [count_inspire_literature_search_raw, hresp, hst, Bool.false_eq_true,
        if_false, hh, hv, List.nil_append]
    exact withRetry_first_ok _ _ _ _ _ hop
  · intro hno
    show alookup "size"
      (mergeParams [("q", PVal.s query), ("size", PVal.n 1)] (facetParams facets)) = _
    rw [alookup_mergeParams_of_none "size" (facetParams facets) _
      (by rw [alookup_facetParams, hno]; rfl)]
    rfl

/-- Witness for C4: against a mocked response body with `hits.total = 42`,
`countAll` returns 42 having issued exactly one request, whose parameters
bind `size` to the integer 1. -/
theorem countAll_single_request_witness :
    count_inspire_literature_search "tc core" []
        (fun _ _ => ⟨200, Json.obj [("hits", Json.obj [("total", Json.num 42)])]⟩) [] =
      ([countReq "tc core" []], .ok (Json.num 42)) ∧
    alookup "size" (countReq "tc core" []).params = some (PVal.n 1) :=
  ⟨(countAll_single_request
      (fun _ _ => ⟨200, Json.obj [("hits", Json.obj [("total", Json.num 42)])]⟩)
      "tc core" [] (Json.obj [("hits", Json.obj [("total", Json.num 42)])])
      (Json.obj [("total", Json.num 42)]) (Json.num 42) rfl rfl rfl).1,
   (countAll_single_request
      (fun _ _ => ⟨200, Json.obj [("hits", Json.obj [("total", Json.num 42)])]⟩)
      "tc core" [] (Json.obj [("hits", Json.obj [("total", Json.num 42)])])
      (Json.obj [("total", Json.num 42)]) (Json.num 42) rfl rfl rfl).2.2 rfl⟩

/-- C5: for every query and facet mapping, `aggregate` issues exactly one GET
request, to the facet (aggregation) endpoint, and returns the `aggregations`
field of the response body verbatim — no other field of the response and no
modification. -/
theorem aggregate_single_request (srv : Server) (query : String)
    (facets : List (String × String)) (body a : Json)
    (hresp : srv [] (aggReq query facets) = ⟨200, body⟩)
    (ha : body.getKey "aggregations" = some a) :
    perform_inspire_literature_aggregation query facets srv [] =
        ([aggReq query facets], .ok a) ∧
      (aggReq query facets).url = INSPIRE_FACET_API_ENDPOINT := by
  refine ⟨?_, rfl⟩
  have hst : (⟨200, body⟩ : HResp).raisesStatus = false := rfl
  have hop : perform_inspire_literature_aggregation_raw query facets srv [] =
      ([aggReq query facets], .ok a) := by
    simp only [perform_inspire_literature_aggregation_raw, hresp, hst, Bool.false_eq_true,
      if_false, ha, List.nil_append]
  exact withRetry_first_ok _ _ _ _ _ hop

/-- Witness for C5: a concrete aggregation body is returned verbatim after a
single request to the facet endpoint. -/
theorem aggregate_single_request_witness :
    perform_inspire_literature_aggregation "tc core" []
        (fun _ _ => ⟨200, Json.obj [("aggregations", Json.obj [("nested", Json.num 3)])]⟩)
        [] =
      ([aggReq "tc core" []], .ok (Json.obj [("nested", Json.num 3)])) :=
  (aggregate_single_request
    (fun _ _ => ⟨200, Json.obj [("aggregations", Json.obj [("nested", Json.num 3)])]⟩)
    "tc core" [] (Json.obj [("aggregations", Json.obj [("nested", Json.num 3)])])
    (Json.obj [("nested", Json.num 3)]) rfl rfl).1

/-- Counterexample to C6 as stated: against the mocked response body
`{"aggregations": {"citation_summary": {"h_index": 7}}}`, `aggregate` returns
`content["aggregations"]`, which is the mapping *containing* the
`citation_summary` key — not the value stored under that key, from which it
differs. -/
theorem aggregate_counterexample_returns_container :
    perform_inspire_literature_aggregation "tc core" []
        (fun _ _ => ⟨200, Json.obj [("aggregations",
          Json.obj [("citation_summary", Json.obj [("h_index", Json.num 7)])])]⟩) [] =
      ([aggReq "tc core" []],
       .ok (Json.obj [("citation_summary", Json.obj [("h_index", Json.num 7)])])) ∧
    Json.obj [("citation_summary", Json.obj [("h_index", Json.num 7)])] ≠
      Json.obj [("h_index", Json.num 7)] := by
  refine ⟨rfl, fun h => ?_⟩
  simp only [Json.obj.injEq, List.cons.injEq, Prod.mk.injEq] at h
  exact absurd h.1.1 (by decide)

/-- C6 amended: for a response body `{"aggregations": {"citation_summary": X}}`,
`aggregate` returns the `aggregations` mapping itself — the mapping containing
the `citation_summary` key — inside which the `citation_summary` sub-mapping
`X` sits unmodified. -/
theorem aggregate_contains_citation_summary (query : String)
    (facets : List (String × String)) (inner : Json) :
    perform_inspire_literature_aggregation query facets
        (fun _ _ => ⟨200, Json.obj [("aggregations",
          Json.obj [("citation_summary", inner)])]⟩) [] =
      ([aggReq query facets], .ok (Json.obj [("citation_summary", inner)])) ∧
    (Json.obj [("citation_summary", inner)]).getKey "citation_summary" = some inner :=
  ⟨rfl, rfl⟩

/-- C9: `get_citations` issues exactly one aggregation call, whose
`earliest_date` facet is the string built from the first and last elements of
`YEARS = range(2008, 2021)` — `"2008--2020"`, all intermediate years
discarded — together with `facet_name = citation-summary`, and returns the
pair `(citations_count.value, average_citations.value)` taken from the `all`
bucket of the `citation_summary` aggregation. -/
theorem get_citations_spec (srv : Server) (query : String)
    (body ag cs ci bu stats cc vc ac va : Json)
    (hresp : srv [] (aggReq query get_citations_facets) = ⟨200, body⟩)
    (hag : body.getKey "aggregations" = some ag)
    (hcs : ag.getKey "citation_summary" = some cs)
    (hci : cs.getKey "citations" = some ci)
    (hbu : ci.getKey "buckets" = some bu)
    (hall : bu.getKey "all" = some stats)
    (hcc : stats.getKey "citations_count" = some cc)
    (hvc : cc.getKey "value" = some vc)
    (hac : stats.getKey "average_citations" = some ac)
    (hva : ac.getKey "value" = some va) :
    get_citations query srv [] = ([aggReq query get_citations_facets], .ok (vc, va)) ∧
      get_citations_facets =
        [("earliest_date", "2008--2020"), ("facet_name", "citation-summary")] ∧
      YEARS.headD 0 = 2008 ∧ (YEARS.drop 1).getLastD 0 = 2020 := by
  refine ⟨?_, by decide, by decide, by decide⟩
  have hst : (⟨200, body⟩ : HResp).raisesStatus = false := rfl
  have hop : perform_inspire_literature_aggregation_raw query get_citations_facets srv [] =
      ([aggReq query get_citations_facets], .ok ag) := by
    simp only [perform_inspire_literature_aggregation_raw, hresp, hst, Bool.false_eq_true,
      if_false, hag, List.nil_append]
  have hagg : perform_inspire_literature_aggregation query get_citations_facets srv [] =
      ([aggReq query get_citations_facets], .ok ag) :=
    withRetry_first_ok _ _ _ _ _ hop
  simp only [get_citations, hagg, hcs, hci, hbu, hall, hcc, hvc, hac, hva]

/-- The nested aggregation body used as the C9 witness response:
`citation_summary.citations.buckets.all` holding `citations_count.value = 321`
and `average_citations.value = 4`. -/
def citationsBody : Json :=
  Json.obj [("aggregations", Json.obj [("citation_summary",
    Json.obj [("citations",
      Json.obj [("buckets",
        Json.obj [("all",
          Json.obj [("citations_count", Json.obj [("value", Json.num 321)]),
                    ("average_citations", Json.obj [("value", Json.num 4)])])])])])])]

/-- Witness for C9: against a server that answers with `citationsBody`,
`get_citations` issues one request carrying the `2008--2020` date range facet
and returns the pair of bucket values. -/
theorem get_citations_spec_witness :
    get_citations "tc core and tc p" (fun _ _ => ⟨200, citationsBody⟩) [] =
        ([aggReq "tc core and tc p" get_citations_facets],
         .ok (Json.num 321, Json.num 4)) ∧
      alookup "earliest_date" (aggReq "tc core and tc p" get_citations_facets).params =
        some (PVal.s "2008--2020") :=
  ⟨(get_citations_spec (fun _ _ => ⟨200, citationsBody⟩) "tc core and tc p"
      citationsBody
      (Json.obj [("citation_summary", Json.obj [("citations", Json.obj [("buckets",
        Json.obj [("all", Json.obj [("citations_count", Json.obj [("value", Json.num 321)]),
          ("average_citations", Json.obj [("value", Json.num 4)])])])])])])
      (Json.obj [("citations", Json.obj [("buckets", Json.obj [("all",
        Json.obj [("citations_count", Json.obj [("value", Json.num 321)]),
          ("average_citations", Json.obj [("value", Json.num 4)])])])])])
      (Json.obj [("buckets", Json.obj [("all",
        Json.obj [("citations_count", Json.obj [("value", Json.num 321)]),
          ("average_citations", Json.obj [("value", Json.num 4)])])])])
      (Json.obj [("all", Json.obj [("citations_count", Json.obj [("value", Json.num 321)]),
          ("average_citations", Json.obj [("value", Json.num 4)])])])
      (Json.obj [("citations_count", Json.obj [("value", Json.num 321)]),
          ("average_citations", Json.obj [("value", Json.num 4)])])
      (Json.obj [("value", Json.num 321)]) (Json.num 321)
      (Json.obj [("value", Json.num 4)]) (Json.num 4)
      rfl rfl rfl rfl rfl rfl rfl rfl rfl rfl).1,
   rfl⟩

/-- C10: in all three operations the caller-supplied facet mapping is merged
after the built-in parameters, so a facet whose key collides with a built-in
parameter (`q` for all three, also `size` for the count operation) replaces
it in the outgoing request: whatever binding `(k, v)` the facet dict holds
ends up as the value sent at key `k`. -/
theorem facet_keys_override_builtins (query : String) (facets : List (String × String))
    (k v : String) (hnd : (facets.map Prod.fst).Nodup) (hv : alookup k facets = some v) :
    alookup k (searchReq query facets).params = some (PVal.s v) ∧
      alookup k (countReq query facets).params = some (PVal.s v) ∧
      alookup k (aggReq query facets).params = some (PVal.s v) := by
  have hnd2 : ((facetParams facets).map Prod.fst).Nodup := by
    rw [facetParams_keys]; exact hnd
  have hv2 : alookup k (facetParams facets) = some (PVal.s v) := by
    rw [alookup_facetParams, hv]; rfl
  exact ⟨alookup_mergeParams_of_some k (PVal.s v) (facetParams facets) _ hnd2 hv2,
    alookup_mergeParams_of_some k (PVal.s v) (facetParams facets) _ hnd2 hv2,
    alookup_mergeParams_of_some k (PVal.s v) (facetParams facets) _ hnd2 hv2⟩

/-- Witness for C10: a facet mapping binding `size` to `"5"` and `q` to
`"cn cms"` — the count request sends `size = "5"` (not the built-in integer
1) and all requests send `q = "cn cms"` (not the query argument). -/
theorem facet_keys_override_builtins_witness :
    alookup "size" (countReq "ignored query" [("size", "5"), ("q", "cn cms")]).params =
        some (PVal.s "5") ∧
      some (PVal.s "5") ≠ some (PVal.n 1) ∧
      alookup "q" (searchReq "ignored query" [("size", "5"), ("q", "cn cms")]).params =
        some (PVal.s "cn cms") ∧
      alookup "q" (aggReq "ignored query" [("size", "5"), ("q", "cn cms")]).params =
        some (PVal.s "cn cms") :=
  ⟨(facet_keys_override_builtins "ignored query" [("size", "5"), ("q", "cn cms")]
      "size" "5" (by decide) rfl).2.1,
   by decide,
   (facet_keys_override_builtins "ignored query" [("size", "5"), ("q", "cn cms")]
      "q" "cn cms" (by decide) rfl).1,
   (facet_keys_override_builtins "ignored query" [("size", "5"), ("q", "cn cms")]
      "q" "cn cms" (by decide) rfl).2.2⟩

/-- A mocked literature endpoint that answers the first `n` requests of the
session with HTTP 500 and every later one with `hits.total = 42`. -/
def countFlakyServer (n : Nat) : Server := fun hist _ =>
  if hist.length < n then ⟨500, Json.null⟩
  else ⟨200, Json.obj [("hits", Json.obj [("total", Json.num 42)])]⟩

/-- A mocked server that always answers HTTP 500. -/
def always500Server : Server := fun _ _ => ⟨500, Json.null⟩

/-- A mocked facet endpoint that answers the first `n` requests with HTTP 500
and every later one with an `aggregations` object. -/
def aggFlakyServer (n : Nat) : Server := fun hist _ =>
  if hist.length < n then ⟨500, Json.null⟩
  else ⟨200, Json.obj [("aggregations", Json.obj [("buckets", Json.num 0)])]⟩

/-- A mocked server whose very first response is HTTP 500 while every later
request — in particular a retry of the failed fetch — would receive a valid
single-page response. -/
def searchFlakyServer : Server := fun hist _ =>
  if hist.length = 0 then ⟨500, Json.null⟩
  else ⟨200, chainBody ⟨"", [Json.num 1]⟩ none⟩

/-- C2, evaluated on the code: the 10-attempt retry holds for `countAll` and
`aggregate` — three transient 500s cost exactly 4 requests before the
successful result, two cost exactly 3, and a permanently failing server is
asked exactly 10 times before the `HTTPError` propagates.  But for
`searchAll` the decorator wraps only generator *creation*, which is pure and
cannot raise (fourth conjunct), so when the first page fetch hits a
transient 500 the error propagates to the caller after a single request
(fifth conjunct) even though the same server would have answered a retry
with a valid page (sixth conjunct). -/
theorem retry_only_wraps_generator_creation :
    count_inspire_literature_search "tc core" [] (countFlakyServer 3) [] =
        (List.replicate 4 (countReq "tc core" []), .ok (Json.num 42)) ∧
      count_inspire_literature_search "tc core" [] always500Server [] =
        (List.replicate 10 (countReq "tc core" []), .error (.httpError 500)) ∧
      perform_inspire_literature_aggregation "tc core" [] (aggFlakyServer 2) [] =
        (List.replicate 3 (aggReq "tc core" []),
         .ok (Json.obj [("buckets", Json.num 0)])) ∧
      perform_inspire_literature_search_decorated "tc core" [] searchFlakyServer [] =
        ([], .ok (perform_inspire_literature_search "tc core" [])) ∧
      searchAll searchFlakyServer 2 [] "tc core" [] =
        ([searchReq "tc core" []], [], .error (.httpError 500)) ∧
      searchFlakyServer [searchReq "tc core" []] (searchReq "tc core" []) =
        ⟨200, chainBody ⟨"", [Json.num 1]⟩ none⟩ :=
  ⟨rfl, rfl, rfl, rfl, rfl, rfl⟩

/-- The three-page chain used to evaluate C3. -/
def ps3 : List PageSpec :=
  [⟨"", [Json.num 1]⟩, ⟨"u2", [Json.num 2]⟩, ⟨"u3", [Json.num 3]⟩]

/-- A mocked server presenting `ps3` whose third response (the fetch of page
3, request index 2) is a transient HTTP 500: any later request — such as an
in-place retry of that fetch — would receive page 3. -/
def page3TransientServer : Server := fun hist req =>
  if hist.length = 2 then ⟨500, Json.null⟩
  else if hist.length < 2 then chainServer ps3 hist req
  else ⟨200, bodyOf ps3 2⟩

/-- C3, evaluated on the code: with a transient error on the fetch of page 3,
the run issues exactly three requests — pages 1 and 2 once each (never
re-fetched) and the failing page-3 fetch once — and aborts with the
`HTTPError` instead of retrying the page-3 fetch in place (second conjunct:
the server would have served page 3 to a retry). -/
theorem page_fetch_not_retried_in_place :
    searchAll page3TransientServer 6 [] "cn lhcb" [] =
        ([searchReq "cn lhcb" [], ⟨"u2", []⟩, ⟨"u3", []⟩],
         [Json.num 1, Json.num 2], .error (.httpError 500)) ∧
      page3TransientServer [searchReq "cn lhcb" [], ⟨"u2", []⟩, ⟨"u3", []⟩] ⟨"u3", []⟩ =
        ⟨200, bodyOf ps3 2⟩ :=
  ⟨rfl, rfl⟩
